import Mathlib

/-!
Shallow embedding of `src/script.js`, the browser glue layer that fetches an
N64 ROM, injects it into an Emscripten module's virtual filesystem, waits for
the module to become ready, and drives the module's launch / save-state /
load-state entry points by dynamic capability probing.

DOM access, timers and the network are modelled as explicit inputs; the
observable behaviour of each function is its list of effects (status updates,
console lines, filesystem operations, entry-point invocations) together with
the exception, if any, that escapes to its caller.
-/

/-- A JavaScript exception, reduced to its message string — the only part the
glue code ever inspects (via `e.message`). -/
structure JsError where
  message : String
deriving DecidableEq

/-- Argument shape handed to an external entry point: a single string, a
string array (for `Module.callMain`), or no argument at all. -/
inductive JsValue where
  | str (s : String)
  | arr (xs : List String)
  | unit
deriving DecidableEq

/-- An observable effect of the glue code. -/
inductive JsEvent where
  | status (s : String)
  | log (s : String)
  | fsUnlink (path : String)
  | fsCreate (parent name : String) (data : List Nat) (canRead canWrite : Bool)
  | invoke (name : String) (arg : JsValue)
deriving DecidableEq

/-- Lines 15-18 of `script.js`: `setStatus` writes the status element and
emits one console line. -/
def setStatus (s : String) : List JsEvent :=
  [ JsEvent.status s, JsEvent.log ( "[N64] " ++ s) ]

/-- Capability surface of the external Emscripten module object
(`window.Module`), probed dynamically by name. A capability of type
`Option (Option JsError)` is absent (`none`), present and returning normally
(`some none`), or present and throwing (`some (some e)`). -/
structure ModuleObj where
  onRuntimeInitialized : Bool
  hasMain : Bool
  FS_createDataFile : Option (Option JsError)
  hasFS_unlink : Bool
  callMain : Option (Option JsError)
  save_state : Option (Option JsError)
  load_state : Option (Option JsError)
deriving DecidableEq

/-- The page-global (window-level) capability surface, including whether the
global `Module` object exists at all. -/
structure Page where
  module : Option ModuleObj
  startEmulator : Option (Option JsError)
  run : Option (Option JsError)
  save_state : Option (Option JsError)
  load_state : Option (Option JsError)
deriving DecidableEq

/-- How a call to the readiness gate resolves: by waiting for the external
runtime to invoke the on-initialized callback slot, by a fixed timer alone,
or by polling at a fixed interval until a readiness condition appears. -/
inductive WaitMode where
  | externalCallback
  | timerDelay (ms : Nat)
  | pollInterval (ms : Nat)
deriving DecidableEq

/-- Lines 22-42 of `script.js`: `whenModuleReady` picks one of three
detection strategies by probing the module's current shape. -/
def whenModuleReady (p : Page) : WaitMode :=
  match p.module with
  | some m =>
      if m.onRuntimeInitialized then WaitMode.externalCallback
      else if m.hasMain then WaitMode.timerDelay 50
      else WaitMode.pollInterval 50
  | none => WaitMode.pollInterval 50

/-- Lines 25-29 of `script.js`: the callback branch installs a wrapper into
`Module.onRuntimeInitialized` (call the previous callback, swallow its
errors, then signal the waiter). Firing the callback never clears the slot,
so the module state the next probe sees is unchanged: the slot is still
occupied. -/
def fireRuntimeCallback (m : ModuleObj) : ModuleObj := m

/-- Result of `mountRomToFS`: the resolved filename, or the thrown error. -/
inductive MountResult where
  | ok (filename : String)
  | err (e : JsError)
deriving DecidableEq

/-- The environment's answer to the network fetch. -/
structure FetchResponse where
  ok : Bool
  status : Nat
  bytes : List Nat
deriving DecidableEq

/-- Lines 45-66 of `script.js`: fetch the ROM, throw `HTTP <status>` on a
non-ok response, throw a capability error if `Module.FS_createDataFile` is
absent, best-effort unlink any prior file (errors swallowed; the call is
only made if `FS_unlink` exists, otherwise its TypeError is swallowed too),
then create the file at the root with read and write flags and report
success. -/
def mountRomToFS (p : Page) (resp : FetchResponse) (url filename : String) :
    List JsEvent × MountResult :=
  let s0 := setStatus ( "Fetching ROM: " ++ url)
  if resp.ok then
    match p.module with
    | none =>
        (s0, MountResult.err ⟨ "Emscripten FS not available (Module.FS_createDataFile missing)"⟩)
    | some m =>
      match m.FS_createDataFile with
      | none =>
          (s0, MountResult.err ⟨ "Emscripten FS not available (Module.FS_createDataFile missing)"⟩)
      | some createBeh =>
        let unlinkEvs := if m.hasFS_unlink then [ JsEvent.fsUnlink ( "/" ++ filename) ] else []
        match createBeh with
        | some e =>
            (s0 ++ unlinkEvs ++ [ JsEvent.log ( "console.error: " ++ e.message) ],
             MountResult.err e)
        | none =>
            (s0 ++ unlinkEvs
                ++ [ JsEvent.fsCreate "/" filename resp.bytes true true ]
                ++ setStatus ( "ROM mounted: " ++ filename),
             MountResult.ok filename)
  else
    (s0, MountResult.err ⟨ "HTTP " ++ toString resp.status⟩)

/-- The module's private filesystem: an association of absolute paths to
byte contents. -/
def applyEvent (fs : List (String × List Nat)) : JsEvent → List (String × List Nat)
  | JsEvent.fsUnlink path => fs.filter (fun f => f.1 != path)
  | JsEvent.fsCreate parent name data _ _ =>
      (parent ++ name, data) :: fs.filter (fun f => f.1 != parent ++ name)
  | _ => fs

/-- Replay a trace of effects against a filesystem state. -/
def applyEvents (fs : List (String × List Nat)) (evs : List JsEvent) :
    List (String × List Nat) :=
  evs.foldl applyEvent fs

/-- The status messages of a trace, in order. -/
def statusEvents (evs : List JsEvent) : List String :=
  evs.filterMap fun e =>
    match e with
    | JsEvent.status s => some s
    | _ => none

/-- The status message left showing after a trace (the sink is
last-write-wins). -/
def lastStatus (evs : List JsEvent) : Option String :=
  (statusEvents evs).getLast?

/-- The entry-point invocations of a trace, in order. -/
def invokeEvents (evs : List JsEvent) : List JsEvent :=
  evs.filter fun e =>
    match e with
    | JsEvent.invoke _ _ => true
    | _ => false

/-- The file-creation effects of a trace, in order. -/
def fsCreateEvents (evs : List JsEvent) : List JsEvent :=
  evs.filter fun e =>
    match e with
    | JsEvent.fsCreate _ _ _ _ _ => true
    | _ => false

/-- All filesystem effects of a trace, in order. -/
def fsEvents (evs : List JsEvent) : List JsEvent :=
  evs.filter fun e =>
    match e with
    | JsEvent.fsCreate _ _ _ _ _ => true
    | JsEvent.fsUnlink _ => true
    | _ => false

/-- Lines 73-90 of `script.js`: the body of the `try` in `startEmulator`.
Candidates are probed in order: `window.startEmulator`, `Module.callMain`,
`window.run`. When `window.startEmulator` is absent and the global `Module`
object does not exist, the bare `Module.callMain` probe itself throws a
ReferenceError. The second component is the exception the body raises, if
any. -/
def startEmulatorTryBody (p : Page) (filename : String) : List JsEvent × Option JsError :=
  match p.startEmulator with
  | some beh =>
      ([ JsEvent.invoke "window.startEmulator" (JsValue.str ( "/" ++ filename)) ], beh)
  | none =>
    match p.module with
    | none => ([], some ⟨ "Module is not defined"⟩)
    | some m =>
      match m.callMain with
      | some beh =>
          ([ JsEvent.invoke "Module.callMain" (JsValue.arr [ "/" ++ filename ]) ], beh)
      | none =>
        match p.run with
        | some beh =>
            ([ JsEvent.invoke "window.run" (JsValue.str ( "/" ++ filename)) ], beh)
        | none =>
            ([ JsEvent.log "console.warn: No obvious start function found" ]
               ++ setStatus "Emulator start function not found", none)

/-- Lines 71-95 of `script.js`: `startEmulator` announces the start, runs the
probing body, and catches any exception the body raises, converting it into
a console line and a `Start failed` status. The second component is the
exception escaping to the caller. -/
def startEmulator (p : Page) (filename : String) : List JsEvent × Option JsError :=
  let s0 := setStatus ( "Starting emulator: " ++ filename)
  match startEmulatorTryBody p filename with
  | (evs, none) => (s0 ++ evs, none)
  | (evs, some e) =>
      (s0 ++ evs ++ [ JsEvent.log ( "console.error: Failed to start emulator: " ++ e.message) ]
          ++ setStatus ( "Start failed: " ++ e.message), none)

/-- Lines 113-123 of `script.js`: the body of the `try` in `saveState`. The
bare `Module._save_state` probe throws a ReferenceError when the global
`Module` object does not exist. -/
def saveStateTryBody (p : Page) : List JsEvent × Option JsError :=
  match p.module with
  | none => ([], some ⟨ "Module is not defined"⟩)
  | some m =>
    match m.save_state with
    | some beh =>
        match beh with
        | none =>
            ([ JsEvent.invoke "Module._save_state" JsValue.unit ]
               ++ setStatus "Saved state via _save_state()", none)
        | some e => ([ JsEvent.invoke "Module._save_state" JsValue.unit ], some e)
    | none =>
      match p.save_state with
      | some beh =>
          match beh with
          | none =>
              ([ JsEvent.invoke "window.save_state" JsValue.unit ]
                 ++ setStatus "Saved state via save_state()", none)
          | some e => ([ JsEvent.invoke "window.save_state" JsValue.unit ], some e)
      | none =>
          (setStatus "No save-state API found in WASM"
             ++ [ JsEvent.log "console.warn: No save function found" ], none)

/-- Lines 111-128 of `script.js`: `saveState` with its enclosing
`try`/`catch`; any exception raised in the body becomes a console line and a
`Save failed` status, and nothing escapes to the caller. -/
def saveState (p : Page) : List JsEvent × Option JsError :=
  let s0 := setStatus "Attempting to save state..."
  match saveStateTryBody p with
  | (evs, none) => (s0 ++ evs, none)
  | (evs, some e) =>
      (s0 ++ evs ++ [ JsEvent.log ( "console.error: " ++ e.message) ]
          ++ setStatus ( "Save failed: " ++ e.message), none)

/-- Lines 132-142 of `script.js`: the body of the `try` in `loadState`,
symmetric to `saveStateTryBody`. -/
def loadStateTryBody (p : Page) : List JsEvent × Option JsError :=
  match p.module with
  | none => ([], some ⟨ "Module is not defined"⟩)
  | some m =>
    match m.load_state with
    | some beh =>
        match beh with
        | none =>
            ([ JsEvent.invoke "Module._load_state" JsValue.unit ]
               ++ setStatus "Loaded state via _load_state()", none)
        | some e => ([ JsEvent.invoke "Module._load_state" JsValue.unit ], some e)
    | none =>
      match p.load_state with
      | some beh =>
          match beh with
          | none =>
              ([ JsEvent.invoke "window.load_state" JsValue.unit ]
                 ++ setStatus "Loaded state via load_state()", none)
          | some e => ([ JsEvent.invoke "window.load_state" JsValue.unit ], some e)
      | none =>
          (setStatus "No load-state API found in WASM"
             ++ [ JsEvent.log "console.warn: No load function found" ], none)

/-- Lines 130-147 of `script.js`: `loadState` with its enclosing
`try`/`catch`, symmetric to `saveState`. -/
def loadState (p : Page) : List JsEvent × Option JsError :=
  let s0 := setStatus "Attempting to load state..."
  match loadStateTryBody p with
  | (evs, none) => (s0 ++ evs, none)
  | (evs, some e) =>
      (s0 ++ evs ++ [ JsEvent.log ( "console.error: " ++ e.message) ]
          ++ setStatus ( "Load state failed: " ++ e.message), none)

/-- JavaScript `String.prototype.split` with a single-character separator:
splitting the empty string gives `[""]`, and a trailing separator yields a
trailing empty field. -/
def jsSplit (sep : Char) : List Char → List (List Char)
  | [] => [ [] ]
  | c :: rest =>
    if c = sep then [] :: jsSplit sep rest
    else
      match jsSplit sep rest with
      | [] => [ [ c ] ]
      | s :: ss => (c :: s) :: ss

/-- JavaScript `Array.prototype.pop` applied to the (never empty) split
result: the last element. -/
def jsPop : List (List Char) → List Char
  | [] => []
  | [ s ] => s
  | _ :: s :: ss => jsPop (s :: ss)

/-- Line 98 of `script.js`: `url.split('/').pop()` — the filename the
pipeline derives from a resource reference. -/
def deriveFilename (url : String) : String :=
  String.mk (jsPop (jsSplit '/' url.data))

/-- Outcome of one run of the load pipeline: its effect trace, any exception
that reached the `catch` block of `loadAndStartRom`, and any exception that
escaped as an unhandled promise rejection. -/
structure PipelineOutcome where
  events : List JsEvent
  caught : Option JsError
  unhandled : Option JsError
deriving DecidableEq

/-- Lines 97-108 of `script.js`. `whenModuleReady(cb)` only registers `cb`
and returns `undefined`, and `await undefined` resolves at once, so the
`try` block completes before `cb` ever runs; the `catch` clause could only
see a synchronous throw from `whenModuleReady` itself, and its body throws
nothing. The async callback runs later, outside the `try`, invoked by the
gate (`gateFires` says whether that ever happens); a rejection of the
callback's promise — `mountRomToFS` throwing — has no handler anywhere. -/
def loadAndStartRom (p : Page) (resp : FetchResponse) (gateFires : Bool) (url : String) :
    PipelineOutcome :=
  let filename := deriveFilename url
  if gateFires then
    match mountRomToFS p resp url filename with
    | (evs, MountResult.ok mounted) =>
        match startEmulator p mounted with
        | (sevs, sexc) => { events := evs ++ sevs, caught := none, unhandled := sexc }
    | (evs, MountResult.err e) =>
        { events := evs, caught := none, unhandled := some e }
  else { events := [], caught := none, unhandled := none }

/-- The "chosen launch entry point throws" situations of `startEmulator`:
the first candidate found in probe order is present and throws. -/
def launchChosenThrows (p : Page) (e : JsError) : Prop :=
  p.startEmulator = some (some e) ∨
  (p.startEmulator = none ∧ ∃ m, p.module = some m ∧ m.callMain = some (some e)) ∨
  (p.startEmulator = none ∧
    ∃ m, p.module = some m ∧ m.callMain = none ∧ p.run = some (some e))

/-- The "chosen save entry point throws" situations of `saveState`. -/
def saveChosenThrows (p : Page) (e : JsError) : Prop :=
  (∃ m, p.module = some m ∧ m.save_state = some (some e)) ∨
  (∃ m, p.module = some m ∧ m.save_state = none ∧ p.save_state = some (some e))

/-- The "chosen load entry point throws" situations of `loadState`. -/
def loadChosenThrows (p : Page) (e : JsError) : Prop :=
  (∃ m, p.module = some m ∧ m.load_state = some (some e)) ∨
  (∃ m, p.module = some m ∧ m.load_state = none ∧ p.load_state = some (some e))

/-- A module object exposing none of the probed capabilities. -/
def mNone : ModuleObj :=
  { onRuntimeInitialized := false, hasMain := false, FS_createDataFile := none,
    hasFS_unlink := false, callMain := none, save_state := none, load_state := none }

/-- A fully equipped module: main and filesystem primitives present and
working, `callMain` present and returning normally. -/
def mFull : ModuleObj :=
  { onRuntimeInitialized := false, hasMain := true, FS_createDataFile := some none,
    hasFS_unlink := true, callMain := some none, save_state := none, load_state := none }

/-- A page whose module is `mFull` and whose window level exposes nothing. -/
def pFull : Page :=
  { module := some mFull, startEmulator := none, run := none,
    save_state := none, load_state := none }

/-- A page exposing only `Module.callMain` among the three launch
candidates. -/
def pOnlyCallMain : Page :=
  { module := some { mNone with callMain := some none }, startEmulator := none,
    run := none, save_state := none, load_state := none }

/-- A page exposing only `window.startEmulator` among the three launch
candidates. -/
def pOnlyWse : Page :=
  { module := some mNone, startEmulator := some none, run := none,
    save_state := none, load_state := none }

/-- A page exposing only `window.run` among the three launch candidates. -/
def pOnlyRun : Page :=
  { module := some mNone, startEmulator := none, run := some none,
    save_state := none, load_state := none }

/-- A page with a module present but none of the launch candidates. -/
def pNoLaunch : Page :=
  { module := some mNone, startEmulator := none, run := none,
    save_state := none, load_state := none }

/-- A page with no global `Module` object at all, though window-level state
functions exist. -/
def pNoModule : Page :=
  { module := none, startEmulator := none, run := none,
    save_state := some none, load_state := some none }

/-- A page where both module-level and window-level state functions exist. -/
def pBothState : Page :=
  { module := some { mNone with save_state := some none, load_state := some none },
    startEmulator := none, run := none, save_state := some none, load_state := some none }

/-- A page where only the window-level state functions exist (module present
but without them). -/
def pPageState : Page :=
  { module := some mNone, startEmulator := none, run := none,
    save_state := some none, load_state := some none }

/-- A concrete error thrown by entry points in the witnesses. -/
def eBoom : JsError := ⟨ "boom"⟩

/-- A page whose chosen launch, save and load entry points all throw. -/
def pThrow : Page :=
  { module := some { mNone with save_state := some (some eBoom), load_state := some (some eBoom) },
    startEmulator := some (some eBoom), run := none, save_state := none, load_state := none }

/-- A module whose on-initialized callback slot is occupied. -/
def mCbSet : ModuleObj := { mNone with onRuntimeInitialized := true, hasMain := true }

/-- A page holding `mCbSet`. -/
def pCbSet : Page :=
  { module := some mCbSet, startEmulator := none, run := none,
    save_state := none, load_state := none }

/-- A page whose module exposes only the primary entry point (no callback
slot occupied). -/
def pMainOnly : Page :=
  { module := some { mNone with hasMain := true }, startEmulator := none, run := none,
    save_state := none, load_state := none }

/-- A 404 answer from the network. -/
def respNotFound : FetchResponse := { ok := false, status := 404, bytes := [] }

/-- A successful fetch of a small payload. -/
def respOk : FetchResponse := { ok := true, status := 200, bytes := [ 128, 55, 18, 64 ] }

/-- The split result is never the empty list. -/
theorem jsSplit_ne_nil (sep : Char) (cs : List Char) : jsSplit sep cs ≠ [] := by
  cases cs with
  | nil => simp [jsSplit]
  | cons c rest =>
      simp only [jsSplit]
      by_cases h : c = sep
      · simp [h]
      · simp only [h, if_false]
        cases hr : jsSplit sep rest with
        | nil => simp
        | cons s ss => simp

/-- Popping the split of a non-empty reference whose last character is not
the separator gives a non-empty last segment. -/
theorem jsPop_jsSplit_ne_nil (sep : Char) :
    ∀ cs : List Char, cs ≠ [] → cs.getLast? ≠ some sep → jsPop (jsSplit sep cs) ≠ []
  | [], h, _ => absurd rfl h
  | [ c ], _, h2 => by
      have hc : c ≠ sep := by
        intro h
        exact h2 (by simp [h, List.getLast?])
      simp [jsSplit, jsPop, hc]
  | c :: d :: ds, _, h2 => by
      have hrest : (d :: ds).getLast? ≠ some sep := by
        simpa [List.getLast?_cons_cons] using h2
      have ih := jsPop_jsSplit_ne_nil sep (d :: ds) (by simp) hrest
      have hsplit : jsSplit sep (c :: d :: ds) =
          if c = sep then [] :: jsSplit sep (d :: ds)
          else
            match jsSplit sep (d :: ds) with
            | [] => [ [ c ] ]
            | s :: ss => (c :: s) :: ss := rfl
      rw [hsplit]
      by_cases hc : c = sep
      · rw [if_pos hc]
        cases hr : jsSplit sep (d :: ds) with
        | nil => exact absurd hr (jsSplit_ne_nil sep (d :: ds))
        | cons s ss =>
            rw [hr] at ih
            simpa [jsPop] using ih
      · rw [if_neg hc]
        cases hr : jsSplit sep (d :: ds) with
        | nil => exact absurd hr (jsSplit_ne_nil sep (d :: ds))
        | cons s ss =>
            rw [hr] at ih
            cases ss with
            | nil => simp [jsPop]
            | cons x xs => simpa [jsPop] using ih

/-- Claim C1: for a successful mount — a success-status fetch response and a
module exposing the filesystem-injection primitive (which returns normally) —
`mountRomToFS url filename`, called with the filename the caller derived as
the last path segment of the url, resolves to exactly that filename, and
`FS_createDataFile` is invoked exactly once, with that filename and the full
fetched byte payload, at the root directory, with the readable and writable
flags set. -/
theorem mountRomToFS_success (p : Page) (m : ModuleObj) (resp : FetchResponse) (url : String)
    (hm : p.module = some m) (hfs : m.FS_createDataFile = some none) (hok : resp.ok = true) :
    (mountRomToFS p resp url (deriveFilename url)).2 = MountResult.ok (deriveFilename url) ∧
    fsCreateEvents (mountRomToFS p resp url (deriveFilename url)).1 =
      [ JsEvent.fsCreate "/" (deriveFilename url) resp.bytes true true ] := by
  by_cases hu : m.hasFS_unlink <;>
    simp [mountRomToFS, hm, hfs, hok, hu, fsCreateEvents, setStatus, List.filter]

/-- Witness for C1 at a concrete page, response and url. -/
theorem mountRomToFS_success_witness :
    (mountRomToFS pFull respOk "roms/mario64.z64" (deriveFilename "roms/mario64.z64")).2 =
      MountResult.ok (deriveFilename "roms/mario64.z64") ∧
    fsCreateEvents (mountRomToFS pFull respOk "roms/mario64.z64"
        (deriveFilename "roms/mario64.z64")).1 =
      [ JsEvent.fsCreate "/" (deriveFilename "roms/mario64.z64") respOk.bytes true true ] :=
  mountRomToFS_success pFull mFull respOk "roms/mario64.z64" rfl rfl rfl

/-- Claim C3: a non-success response makes `mountRomToFS` fail with the
HTTP-status error; no filesystem primitive is invoked, and replaying the
trace against any filesystem state leaves it unchanged. -/
theorem mountRomToFS_fetch_error (p : Page) (resp : FetchResponse) (url filename : String)
    (h : resp.ok = false) :
    (mountRomToFS p resp url filename).2 = MountResult.err ⟨ "HTTP " ++ toString resp.status⟩ ∧
    fsEvents (mountRomToFS p resp url filename).1 = [] ∧
    ∀ fs : List (String × List Nat), applyEvents fs (mountRomToFS p resp url filename).1 = fs := by
  refine ⟨?_, ?_, ?_⟩ <;>
    simp [mountRomToFS, h, fsEvents, setStatus, applyEvents, applyEvent, List.filter]

/-- Witness for C3 at a concrete page, 404 response, url and filesystem. -/
theorem mountRomToFS_fetch_error_witness :
    (mountRomToFS pFull respNotFound "roms/mario64.z64" "mario64.z64").2 =
      MountResult.err ⟨ "HTTP " ++ toString respNotFound.status⟩ ∧
    fsEvents (mountRomToFS pFull respNotFound "roms/mario64.z64" "mario64.z64").1 = [] ∧
    applyEvents [ ( "/old.z64", [ 1, 2 ] ) ]
      (mountRomToFS pFull respNotFound "roms/mario64.z64" "mario64.z64").1 =
      [ ( "/old.z64", [ 1, 2 ] ) ] := by
  have h := mountRomToFS_fetch_error pFull respNotFound "roms/mario64.z64" "mario64.z64" rfl
  exact ⟨h.1, h.2.1, h.2.2 [ ( "/old.z64", [ 1, 2 ] ) ]⟩

/-- Claim C4: `startEmulator` tries the launch candidates in the fixed
priority order `window.startEmulator`, `Module.callMain`, `window.run`,
passing the absolute mount path to whichever is found first and invoking no
other candidate. In particular, with only `Module.callMain` present, it is
invoked with exactly the single-element argument list holding the absolute
mount path. -/
theorem startEmulator_priority (p : Page) (m : ModuleObj) (f : String) :
    (∀ b, p.startEmulator = some b →
        invokeEvents (startEmulator p f).1 =
          [ JsEvent.invoke "window.startEmulator" (JsValue.str ( "/" ++ f)) ]) ∧
    (p.startEmulator = none → p.module = some m → ∀ b, m.callMain = some b →
        invokeEvents (startEmulator p f).1 =
          [ JsEvent.invoke "Module.callMain" (JsValue.arr [ "/" ++ f ]) ]) ∧
    (p.startEmulator = none → p.module = some m → m.callMain = none → ∀ b, p.run = some b →
        invokeEvents (startEmulator p f).1 =
          [ JsEvent.invoke "window.run" (JsValue.str ( "/" ++ f)) ]) := by
  refine ⟨?_, ?_, ?_⟩
  · intro b hb
    cases b <;> simp [startEmulator, startEmulatorTryBody, hb, invokeEvents, setStatus]
  · intro h1 h2 b hb
    cases b <;> simp [startEmulator, startEmulatorTryBody, h1, h2, hb, invokeEvents, setStatus]
  · intro h1 h2 h3 b hb
    cases b <;> simp [startEmulator, startEmulatorTryBody, h1, h2, h3, hb, invokeEvents, setStatus]

/-- Witness for C4 at concrete pages: only `callMain` (the spec's scenario,
with filename game.z64), only `window.startEmulator`, and only `window.run`. -/
theorem startEmulator_priority_witness :
    invokeEvents (startEmulator pOnlyCallMain "game.z64").1 =
      [ JsEvent.invoke "Module.callMain" (JsValue.arr [ "/game.z64" ]) ] ∧
    invokeEvents (startEmulator pOnlyWse "game.z64").1 =
      [ JsEvent.invoke "window.startEmulator" (JsValue.str "/game.z64") ] ∧
    invokeEvents (startEmulator pOnlyRun "game.z64").1 =
      [ JsEvent.invoke "window.run" (JsValue.str "/game.z64") ] :=
  ⟨(startEmulator_priority pOnlyCallMain { mNone with callMain := some none }
      "game.z64").2.1 rfl rfl none rfl,
   (startEmulator_priority pOnlyWse mNone "game.z64").1 none rfl,
   (startEmulator_priority pOnlyRun mNone "game.z64").2.2 rfl rfl rfl none rfl⟩

/-- Claim C7: with a module present but none of the three launch candidates,
`startEmulator` invokes no candidate, reports the missing capability through
the status sink (`Emulator start function not found`, which is also the
status left showing), and lets no exception escape. -/
theorem startEmulator_no_candidates (p : Page) (m : ModuleObj) (f : String)
    (hm : p.module = some m) (h1 : p.startEmulator = none) (h2 : m.callMain = none)
    (h3 : p.run = none) :
    invokeEvents (startEmulator p f).1 = [] ∧
    JsEvent.status "Emulator start function not found" ∈ (startEmulator p f).1 ∧
    lastStatus (startEmulator p f).1 = some "Emulator start function not found" ∧
    (startEmulator p f).2 = none := by
  refine ⟨?_, ?_, ?_, ?_⟩ <;>
    simp [startEmulator, startEmulatorTryBody, hm, h1, h2, h3, invokeEvents,
      lastStatus, statusEvents, setStatus]

/-- Witness for C7 at a concrete page with no launch candidate. -/
theorem startEmulator_no_candidates_witness :
    invokeEvents (startEmulator pNoLaunch "game.z64").1 = [] ∧
    JsEvent.status "Emulator start function not found" ∈ (startEmulator pNoLaunch "game.z64").1 ∧
    lastStatus (startEmulator pNoLaunch "game.z64").1 =
      some "Emulator start function not found" ∧
    (startEmulator pNoLaunch "game.z64").2 = none :=
  startEmulator_no_candidates pNoLaunch mNone "game.z64" rfl rfl rfl rfl

/-- Claim C6: with a module present, `saveState` calls only the module-level
`_save_state` when both the module-level and the page-level function exist;
it calls the page-level `save_state` when only that one exists; and when
neither exists it invokes nothing and reports the missing capability through
the status sink — and symmetrically for `loadState`. -/
theorem saveState_loadState_priority (p : Page) (m : ModuleObj) (hm : p.module = some m) :
    (∀ bm bp, m.save_state = some bm → p.save_state = some bp →
        invokeEvents (saveState p).1 = [ JsEvent.invoke "Module._save_state" JsValue.unit ]) ∧
    (∀ bp, m.save_state = none → p.save_state = some bp →
        invokeEvents (saveState p).1 = [ JsEvent.invoke "window.save_state" JsValue.unit ]) ∧
    (m.save_state = none → p.save_state = none →
        invokeEvents (saveState p).1 = [] ∧
        JsEvent.status "No save-state API found in WASM" ∈ (saveState p).1) ∧
    (∀ bm bp, m.load_state = some bm → p.load_state = some bp →
        invokeEvents (loadState p).1 = [ JsEvent.invoke "Module._load_state" JsValue.unit ]) ∧
    (∀ bp, m.load_state = none → p.load_state = some bp →
        invokeEvents (loadState p).1 = [ JsEvent.invoke "window.load_state" JsValue.unit ]) ∧
    (m.load_state = none → p.load_state = none →
        invokeEvents (loadState p).1 = [] ∧
        JsEvent.status "No load-state API found in WASM" ∈ (loadState p).1) := by
  refine ⟨?_, ?_, ?_, ?_, ?_, ?_⟩
  · intro bm bp hbm _
    cases bm <;> simp [saveState, saveStateTryBody, hm, hbm, invokeEvents, setStatus]
  · intro bp hbm hbp
    cases bp <;> simp [saveState, saveStateTryBody, hm, hbm, hbp, invokeEvents, setStatus]
  · intro hbm hbp
    constructor <;> simp [saveState, saveStateTryBody, hm, hbm, hbp, invokeEvents, setStatus]
  · intro bm bp hbm _
    cases bm <;> simp [loadState, loadStateTryBody, hm, hbm, invokeEvents, setStatus]
  · intro bp hbm hbp
    cases bp <;> simp [loadState, loadStateTryBody, hm, hbm, hbp, invokeEvents, setStatus]
  · intro hbm hbp
    constructor <;> simp [loadState, loadStateTryBody, hm, hbm, hbp, invokeEvents, setStatus]

/-- Witness for C6 at concrete pages: both levels present, page level only,
and neither present — for save and for load. -/
theorem saveState_loadState_priority_witness :
    invokeEvents (saveState pBothState).1 = [ JsEvent.invoke "Module._save_state" JsValue.unit ] ∧
    invokeEvents (loadState pBothState).1 = [ JsEvent.invoke "Module._load_state" JsValue.unit ] ∧
    invokeEvents (saveState pPageState).1 = [ JsEvent.invoke "window.save_state" JsValue.unit ] ∧
    invokeEvents (loadState pPageState).1 = [ JsEvent.invoke "window.load_state" JsValue.unit ] ∧
    invokeEvents (saveState pNoLaunch).1 = [] ∧
    JsEvent.status "No save-state API found in WASM" ∈ (saveState pNoLaunch).1 ∧
    invokeEvents (loadState pNoLaunch).1 = [] ∧
    JsEvent.status "No load-state API found in WASM" ∈ (loadState pNoLaunch).1 :=
  have hBoth := saveState_loadState_priority pBothState
    { mNone with save_state := some none, load_state := some none } rfl
  have hPage := saveState_loadState_priority pPageState mNone rfl
  have hNone := saveState_loadState_priority pNoLaunch mNone rfl
  ⟨hBoth.1 none none rfl rfl,
   hBoth.2.2.2.1 none none rfl rfl,
   hPage.2.1 none rfl rfl,
   hPage.2.2.2.2.1 none rfl rfl,
   (hNone.2.2.1 rfl rfl).1,
   (hNone.2.2.1 rfl rfl).2,
   (hNone.2.2.2.2.2 rfl rfl).1,
   (hNone.2.2.2.2.2 rfl rfl).2⟩

/-- Claim C8: an exception thrown inside the entry point chosen by
`startEmulator`, `saveState` or `loadState` is caught inside that operation,
the status message left showing reflects the failure, and no exception
escapes to the operation's caller. -/
theorem entry_point_throw_caught (p : Page) (f : String) (e : JsError) :
    (launchChosenThrows p e →
        (startEmulator p f).2 = none ∧
        lastStatus (startEmulator p f).1 = some ( "Start failed: " ++ e.message)) ∧
    (saveChosenThrows p e →
        (saveState p).2 = none ∧
        lastStatus (saveState p).1 = some ( "Save failed: " ++ e.message)) ∧
    (loadChosenThrows p e →
        (loadState p).2 = none ∧
        lastStatus (loadState p).1 = some ( "Load state failed: " ++ e.message)) := by
  refine ⟨?_, ?_, ?_⟩
  · rintro (h1 | ⟨h1, m, h2, h3⟩ | ⟨h1, m, h2, h3, h4⟩) <;>
      constructor <;>
        simp [startEmulator, startEmulatorTryBody, h1, *, lastStatus, statusEvents, setStatus]
  · rintro (⟨m, h1, h2⟩ | ⟨m, h1, h2, h3⟩) <;>
      constructor <;>
        simp [saveState, saveStateTryBody, h1, h2, *, lastStatus, statusEvents, setStatus]
  · rintro (⟨m, h1, h2⟩ | ⟨m, h1, h2, h3⟩) <;>
      constructor <;>
        simp [loadState, loadStateTryBody, h1, h2, *, lastStatus, statusEvents, setStatus]

/-- Witness for C8 at a concrete page whose chosen launch, save and load
entry points all throw the same concrete error. -/
theorem entry_point_throw_caught_witness :
    ((startEmulator pThrow "game.z64").2 = none ∧
      lastStatus (startEmulator pThrow "game.z64").1 =
        some ( "Start failed: " ++ eBoom.message)) ∧
    ((saveState pThrow).2 = none ∧
      lastStatus (saveState pThrow).1 = some ( "Save failed: " ++ eBoom.message)) ∧
    ((loadState pThrow).2 = none ∧
      lastStatus (loadState pThrow).1 = some ( "Load state failed: " ++ eBoom.message)) :=
  have h := entry_point_throw_caught pThrow "game.z64" eBoom
  ⟨h.1 (Or.inl rfl),
   h.2.1 (Or.inl ⟨{ mNone with save_state := some (some eBoom), load_state := some (some eBoom) },
     rfl, rfl⟩),
   h.2.2 (Or.inl ⟨{ mNone with save_state := some (some eBoom), load_state := some (some eBoom) },
     rfl, rfl⟩)⟩

/-- Claim C10: `saveState` and `loadState` never let an exception escape to
their caller, and in particular with no global `Module` object at all the
capability probe's own ReferenceError is caught and converted into a failure
status, no state function is invoked, and both calls return normally. -/
theorem saveState_loadState_never_throw (p : Page) :
    (saveState p).2 = none ∧ (loadState p).2 = none ∧
    (p.module = none →
      lastStatus (saveState p).1 = some "Save failed: Module is not defined" ∧
      lastStatus (loadState p).1 = some "Load state failed: Module is not defined" ∧
      invokeEvents (saveState p).1 = [] ∧ invokeEvents (loadState p).1 = []) := by
  refine ⟨?_, ?_, ?_⟩
  · rcases h : saveStateTryBody p with ⟨evs, exc⟩
    cases exc <;> simp [saveState, h]
  · rcases h : loadStateTryBody p with ⟨evs, exc⟩
    cases exc <;> simp [loadState, h]
  · intro hm
    refine ⟨?_, ?_, ?_, ?_⟩ <;>
      simp [saveState, saveStateTryBody, loadState, loadStateTryBody, hm,
        lastStatus, statusEvents, invokeEvents, setStatus]

/-- Witness for C10 at a concrete page with no module but with window-level
state functions present (which are still never reached). -/
theorem saveState_loadState_never_throw_witness :
    (saveState pNoModule).2 = none ∧ (loadState pNoModule).2 = none ∧
    lastStatus (saveState pNoModule).1 = some "Save failed: Module is not defined" ∧
    lastStatus (loadState pNoModule).1 = some "Load state failed: Module is not defined" ∧
    invokeEvents (saveState pNoModule).1 = [] ∧ invokeEvents (loadState pNoModule).1 = [] :=
  have h := saveState_loadState_never_throw pNoModule
  ⟨h.1, h.2.1, (h.2.2 rfl).1, (h.2.2 rfl).2.1, (h.2.2 rfl).2.2.1, (h.2.2 rfl).2.2.2⟩

/-- Claim C5, counterexample: with the on-initialized callback slot occupied
the gate resolves by chaining onto the external callback, and firing that
callback leaves the slot occupied; a subsequent call to the gate therefore
chains onto the external callback again — it waits for another external
invocation instead of completing immediately. -/
theorem whenModuleReady_not_monotonic :
    whenModuleReady pCbSet = WaitMode.externalCallback ∧
    fireRuntimeCallback mCbSet = mCbSet ∧
    whenModuleReady { pCbSet with module := some (fireRuntimeCallback mCbSet) } =
      WaitMode.externalCallback := by
  decide

/-- Claim C5 as amended: the gate is not memoized — every call re-runs
detection on the module's current shape. While the callback slot is occupied
(as it remains after a callback-chained ready signal) a call waits for an
external callback invocation; only with the slot unoccupied and the primary
entry point present does a call complete after a fixed timer, without
re-polling and without waiting for an external callback. -/
theorem whenModuleReady_redetects (p : Page) (m : ModuleObj) (hm : p.module = some m) :
    (m.onRuntimeInitialized = true → whenModuleReady p = WaitMode.externalCallback) ∧
    (m.onRuntimeInitialized = false → m.hasMain = true →
      whenModuleReady p = WaitMode.timerDelay 50) := by
  constructor
  · intro h
    simp [whenModuleReady, hm, h]
  · intro h1 h2
    simp [whenModuleReady, hm, h1, h2]

/-- Witness for the amended C5 at two concrete pages: callback slot occupied,
and entry point only. -/
theorem whenModuleReady_redetects_witness :
    whenModuleReady pCbSet = WaitMode.externalCallback ∧
    whenModuleReady pMainOnly = WaitMode.timerDelay 50 :=
  ⟨(whenModuleReady_redetects pCbSet mCbSet rfl).1 rfl,
   (whenModuleReady_redetects pMainOnly { mNone with hasMain := true } rfl).2 rfl rfl⟩

/-- Claim C9, counterexample: the resource reference `roms/` ends in a
slash, and the filename the pipeline derives from it — the last path
segment, computed as `url.split('/').pop()` — is the empty string. -/
theorem deriveFilename_empty_on_trailing_slash : deriveFilename "roms/" = "" := by
  decide

/-- Claim C9 as amended: the derived filename is non-empty for every
resource reference that is itself non-empty and does not end in the path
separator; a reference ending in a slash (or the empty reference) derives
the empty filename. -/
theorem deriveFilename_ne_empty (url : String) (h1 : url.data ≠ [])
    (h2 : url.data.getLast? ≠ some '/') : deriveFilename url ≠ "" := by
  intro hempty
  exact jsPop_jsSplit_ne_nil '/' url.data h1 h2 (congrArg String.data hempty)

/-- Witness for the amended C9 at the default ROM path. -/
theorem deriveFilename_ne_empty_witness : deriveFilename "roms/mario64.z64" ≠ "" :=
  deriveFilename_ne_empty "roms/mario64.z64" (by decide) (by decide)

/-- Claim C2, evaluated at the failing input: with the module ready and the
fetch answering HTTP 404, the rejection of `mountRomToFS` escapes the
pipeline of `loadAndStartRom` as an unhandled promise rejection — the
pipeline's `catch` never receives it, and the status sink only ever shows
the fetch announcement, never an `Error loading ROM` report. The `try` in
`loadAndStartRom` awaits the `undefined` returned by `whenModuleReady`, so
it cannot observe the async callback's rejection. -/
theorem loadAndStartRom_drops_mount_error :
    (loadAndStartRom pFull respNotFound true "roms/mario64.z64").unhandled =
      some ⟨ "HTTP 404"⟩ ∧
    (loadAndStartRom pFull respNotFound true "roms/mario64.z64").caught = none ∧
    statusEvents (loadAndStartRom pFull respNotFound true "roms/mario64.z64").events =
      [ "Fetching ROM: roms/mario64.z64" ] := by
  decide
